import Mathlib

/-!
# Casino-Minesweeper backend: shallow embedding and verification

This file embeds the wager-game engine of `src/backend/server.py` (FastAPI +
MongoDB) as pure Lean functions and proves the frozen claims about it.

Modelling conventions:
* Python `int` is `Int` (arbitrary precision in both).
* Python `float` arithmetic on the multiplier values is modelled exactly over
  `ℚ`, reading each decimal literal as the rational it denotes
  (e.g. `12.0 / 100.0` is `12 / 100`).  All spec-level statements about the
  multiplier are stated in this exact-decimal arithmetic.
* Python `int(x)` on a number is truncation toward zero, modelled by `pyInt`.
* The MongoDB documents for a user and a game are the records `UserRec` and
  `Game`.  Each endpoint is a function from the relevant records (plus request
  fields) to `Except ApiErr result`; a `.error` result corresponds to the
  Python handler raising before any database write, or to an unhandled Python
  exception, so the stored records are unchanged in every error case.
* `random.sample` mine layouts are a parameter of `start_game`
  (`mines : List (List Int)`), since the claims quantify over layouts.
* Response `message` strings and the display-only roundings
  (`round(new_multiplier, 2)`, `round(multiplier_percentage, 1)`) are omitted
  from the response records; every numeric field a claim mentions is kept.
-/

/-- Error outcomes of the endpoints.  The first six are the
`HTTPException(status_code=400/404, ...)` raises in `server.py`;
`indexError` is an unhandled Python `IndexError` (surfaced as HTTP 500);
`mongoWriteError` is the `pymongo` write error raised when a `$set` path
component is a negative array index (also surfaced as HTTP 500). -/
inductive ApiErr where
  | userNotFound
  | mineCountOutOfRange
  | insufficientPoints
  | gameNotFound
  | gameNotActive
  | cellAlreadyRevealed
  | indexError
  | mongoWriteError
deriving DecidableEq, Repr

/-- The user document created by `create_user` and mutated by the game
endpoints (`user_id` and `created_at` carry no game logic and are omitted). -/
structure UserRec where
  points : Int
  wallet_balance : ℚ
  free_trials_left : Int
  total_games : Int
  total_winnings : Int
deriving DecidableEq, Repr

/-- The game document (`game_id`, `user_id`, `created_at` omitted). -/
structure Game where
  bet_amount : Int
  mine_count : Int
  multiplier_per_click : ℚ
  current_multiplier : ℚ
  current_winnings : Int
  mines : List (List Int)
  revealed : List (List Bool)
  is_active : Bool
  is_free_trial : Bool
  safe_clicks : Int
deriving DecidableEq, Repr

/-- Request body of `POST /api/start-game` (`user_id` omitted). -/
structure GameStart where
  bet_amount : Int
  mine_count : Int
deriving DecidableEq, Repr

/-- `MINE_PERCENTAGES` dict from `server.py` lines 32-41: mine count to
multiplier percentage. -/
def MINE_PERCENTAGES (mc : Int) : Option ℚ :=
  if mc = 1 then some 5
  else if mc = 2 then some 8
  else if mc = 3 then some 12
  else if mc = 4 then some 15
  else if mc = 5 then some 18
  else if mc = 6 then some 22
  else if mc = 7 then some 25
  else if mc = 8 then some 30
  else none

/-- `get_multiplier_per_click`: `MINE_PERCENTAGES.get(mine_count, 12.0) / 100.0`. -/
def get_multiplier_per_click (mine_count : Int) : ℚ :=
  ((MINE_PERCENTAGES mine_count).getD 12) / 100

/-- `calculate_multiplier`: `1.0 + (safe_clicks * multiplier_per_click)`. -/
def calculate_multiplier (safe_clicks : Int) (multiplier_per_click : ℚ) : ℚ :=
  1 + safe_clicks * multiplier_per_click

/-- Python `int(q)`: truncation toward zero. -/
def pyInt (q : ℚ) : Int :=
  q.num.tdiv q.den

/-- Python list indexing `xs[i]`: a non-negative index is direct, a negative
index `i` with `-len ≤ i` denotes `xs[len + i]`, anything else raises
`IndexError` (modelled as `none`). -/
def pyGet (xs : List α) (i : Int) : Option α :=
  if 0 ≤ i then xs.get? i.toNat
  else if -(xs.length : Int) ≤ i then xs.get? (xs.length + i).toNat
  else none

/-- Python `m[row][col]` on a list of lists. -/
def pyGet2 (m : List (List α)) (row col : Int) : Option α :=
  (pyGet m row).bind (fun r => pyGet r col)

/-- Grid lookup with defaults, used where the source indexes with literal
in-range indices (`get_game`'s comprehension over `range(5)`); on the 5×5
grids every session actually has, the default is never consulted. -/
def cellD (m : List (List α)) (d : α) (i j : Nat) : α :=
  (m.getD i []).getD j d

/-- Set cell `(r, c)` of a grid to `b`. -/
def setCell (m : List (List Bool)) (r c : Nat) (b : Bool) : List (List Bool) :=
  m.set r ((m.getD r []).set c b)

/-- The MongoDB update `{"$set": {f"revealed.{row}.{col}": True}}`
(`server.py` lines 328-331).  MongoDB rejects a negative path component on an
array with a write error, so the update succeeds only for non-negative
indices; an index ≥ 5 is unreachable because the preceding Python read of
`game["revealed"][row][col]` already raised `IndexError`. -/
def mongoSetRevealed (g : Game) (row col : Int) : Except ApiErr Game :=
  if 0 ≤ row ∧ 0 ≤ col then
    Except.ok { g with revealed := setCell g.revealed row.toNat col.toNat true }
  else
    Except.error ApiErr.mongoWriteError

/-- Response of `POST /api/start-game` (fields a claim mentions). -/
structure StartResp where
  is_free_trial : Bool
  bet_amount : Int
  mine_count : Int
  multiplier_per_click_pct : ℚ
  current_winnings : Int
deriving DecidableEq, Repr

/-- Response of `POST /api/click-cell`: the `result: "mine_hit"` shape with
its literal `winnings: 0`, or the `result: "safe"` shape (the display-only
rounded multiplier fields are omitted, per the conventions above). -/
inductive ClickResp where
  | mineHit (winnings : Int)
  | safe (safe_clicks : Int) (current_winnings : Int)
deriving DecidableEq, Repr

/-- The winnings figure a click response reports (`winnings` for a mine hit,
`current_winnings` for a safe click). -/
def ClickResp.reportedWinnings : ClickResp → Int
  | ClickResp.mineHit w => w
  | ClickResp.safe _ w => w

/-- `start_game` (`server.py` lines 236-311), for a found user.  Returns the
updated user record, the inserted game document and the response.  An
`.error` means the handler raised before any write: user and (nonexistent)
game are unchanged. -/
def start_game (u : UserRec) (req : GameStart) (mines : List (List Int)) :
    Except ApiErr (UserRec × Game × StartResp) :=
  if req.mine_count < 1 ∨ req.mine_count > 8 then
    Except.error ApiErr.mineCountOutOfRange
  else
    let is_free_trial : Bool := u.free_trials_left > 0 && req.bet_amount == 0
    if ¬ is_free_trial ∧ u.points < req.bet_amount then
      Except.error ApiErr.insufficientPoints
    else
      let u1 : UserRec :=
        if ¬ is_free_trial then { u with points := u.points - req.bet_amount }
        else { u with free_trials_left := u.free_trials_left - 1 }
      let mpc := get_multiplier_per_click req.mine_count
      let g : Game :=
        { bet_amount := req.bet_amount
          mine_count := req.mine_count
          multiplier_per_click := mpc
          current_multiplier := 1
          current_winnings := req.bet_amount
          mines := mines
          revealed := List.replicate 5 (List.replicate 5 false)
          is_active := true
          is_free_trial := is_free_trial
          safe_clicks := 0 }
      let u2 : UserRec := { u1 with total_games := u1.total_games + 1 }
      Except.ok (u2, g,
        { is_free_trial := is_free_trial
          bet_amount := req.bet_amount
          mine_count := req.mine_count
          multiplier_per_click_pct := (MINE_PERCENTAGES req.mine_count).getD 12
          current_winnings := if ¬ is_free_trial then req.bet_amount else 0 })

/-- `click_cell` (`server.py` lines 313-374), for a found game.  Returns the
updated game document and the response; the user record is never touched by
this endpoint.  An `.error` other than `mongoWriteError` means the handler
raised before any write; `mongoWriteError` is raised by the store itself,
which rejects the whole update, so the stored game is unchanged in every
error case. -/
def click_cell (g : Game) (row col : Int) : Except ApiErr (Game × ClickResp) :=
  if ¬ g.is_active then Except.error ApiErr.gameNotActive
  else
    match pyGet2 g.revealed row col with
    | none => Except.error ApiErr.indexError
    | some true => Except.error ApiErr.cellAlreadyRevealed
    | some false =>
      match mongoSetRevealed g row col with
      | Except.error e => Except.error e
      | Except.ok g1 =>
        match pyGet2 g.mines row col with
        | none => Except.error ApiErr.indexError
        | some v =>
          if v = 1 then
            Except.ok ({ g1 with is_active := false }, ClickResp.mineHit 0)
          else
            let new_safe_clicks := g.safe_clicks + 1
            let new_multiplier :=
              calculate_multiplier new_safe_clicks g.multiplier_per_click
            let new_winnings : Int :=
              if ¬ g.is_free_trial then pyInt ((g.bet_amount : ℚ) * new_multiplier)
              else 0
            Except.ok
              ({ g1 with
                  safe_clicks := new_safe_clicks
                  current_multiplier := new_multiplier
                  current_winnings := new_winnings },
                ClickResp.safe new_safe_clicks new_winnings)

/-- `cash_out` (`server.py` lines 376-417), for a found game and its owning
user.  Returns the updated user, the updated game and the reported winnings.
An `.error` means the handler raised before any write. -/
def cash_out (u : UserRec) (g : Game) : Except ApiErr (UserRec × Game × Int) :=
  if ¬ g.is_active then Except.error ApiErr.gameNotActive
  else
    let g1 : Game := { g with is_active := false }
    let winnings := g.current_winnings
    let u1 : UserRec :=
      if ¬ g.is_free_trial ∧ winnings > 0 then
        { u with
            points := u.points + winnings
            total_winnings := u.total_winnings + winnings
            wallet_balance := u.wallet_balance + (winnings : ℚ) }
      else u
    Except.ok (u1, g1, winnings)

/-- `get_game` (`server.py` lines 419-432), for a found game: the stored
document with the mine map replaced by the masked map
`0 if not revealed[i][j] else mines[i][j]` recomputed over `range(5)`. -/
def get_game (g : Game) : Game :=
  { g with
      mines :=
        (List.range 5).map (fun i =>
          (List.range 5).map (fun j =>
            if cellD g.revealed false i j then cellD g.mines 0 i j else 0)) }

/-- Run a sequence of `click_cell` calls on one session, threading the stored
game document (responses discarded). -/
def revealSeq (g : Game) : List (Int × Int) → Except ApiErr Game
  | [] => Except.ok g
  | p :: rest =>
    match click_cell g p.1 p.2 with
    | Except.ok (g1, _) => revealSeq g1 rest
    | Except.error e => Except.error e

/-- The per-click increment table of spec §4.2, written from the spec's words
(1→5%, 2→8%, 3→12%, 4→15%, 5→18%, 6→22%, 7→25%, 8→30%), to be compared with
`get_multiplier_per_click` from the source. -/
def specIncrement (mc : Int) : ℚ :=
  if mc = 1 then 5 / 100
  else if mc = 2 then 8 / 100
  else if mc = 3 then 12 / 100
  else if mc = 4 then 15 / 100
  else if mc = 5 then 18 / 100
  else if mc = 6 then 22 / 100
  else if mc = 7 then 25 / 100
  else if mc = 8 then 30 / 100
  else 0

lemma get_multiplier_per_click_table {mc : Int} (h1 : 1 ≤ mc) (h8 : mc ≤ 8) :
    get_multiplier_per_click mc = specIncrement mc := by
  have : mc = 1 ∨ mc = 2 ∨ mc = 3 ∨ mc = 4 ∨ mc = 5 ∨ mc = 6 ∨ mc = 7 ∨ mc = 8 := by
    omega
  rcases this with h | h | h | h | h | h | h | h <;>
    subst h <;> rfl

lemma specIncrement_nonneg (mc : Int) : 0 ≤ specIncrement mc := by
  unfold specIncrement
  split_ifs <;> norm_num

/-- A fresh demo account, as created by `create_user`. -/
def demoUser : UserRec :=
  { points := 1000, wallet_balance := 100, free_trials_left := 3,
    total_games := 0, total_winnings := 0 }

/-- A layout with its 3 mines in the top row. -/
def minesTopRow : List (List Int) :=
  [[1, 1, 1, 0, 0], [0, 0, 0, 0, 0], [0, 0, 0, 0, 0],
   [0, 0, 0, 0, 0], [0, 0, 0, 0, 0]]

/-- `demoUser` after starting a paid stake-50 session. -/
def demoUserAfter : UserRec :=
  { points := 950, wallet_balance := 100, free_trials_left := 3,
    total_games := 1, total_winnings := 0 }

/-- The session document `start_game demoUser ⟨50, 3⟩ minesTopRow` inserts. -/
def demoGame50 : Game :=
  { bet_amount := 50, mine_count := 3, multiplier_per_click := 3 / 25,
    current_multiplier := 1, current_winnings := 50, mines := minesTopRow,
    revealed := List.replicate 5 (List.replicate 5 false),
    is_active := true, is_free_trial := false, safe_clicks := 0 }

/-- The response `start_game demoUser ⟨50, 3⟩ minesTopRow` returns. -/
def demoResp50 : StartResp :=
  { is_free_trial := false, bet_amount := 50, mine_count := 3,
    multiplier_per_click_pct := 12, current_winnings := 50 }

/-- `demoGame50` after safely revealing (4,4) and (4,3). -/
def demoRun2 : Game :=
  { bet_amount := 50, mine_count := 3, multiplier_per_click := 3 / 25,
    current_multiplier := 31 / 25, current_winnings := 62, mines := minesTopRow,
    revealed := [[false, false, false, false, false],
                 [false, false, false, false, false],
                 [false, false, false, false, false],
                 [false, false, false, false, false],
                 [false, false, false, true, true]],
    is_active := true, is_free_trial := false, safe_clicks := 2 }

lemma start_game_ok {u : UserRec} {req : GameStart} {mines : List (List Int)}
    {u' : UserRec} {g0 : Game} {resp : StartResp}
    (h : start_game u req mines = Except.ok (u', g0, resp)) :
    g0 = { bet_amount := req.bet_amount
           mine_count := req.mine_count
           multiplier_per_click := get_multiplier_per_click req.mine_count
           current_multiplier := 1
           current_winnings := req.bet_amount
           mines := mines
           revealed := List.replicate 5 (List.replicate 5 false)
           is_active := true
           is_free_trial := (u.free_trials_left > 0 && req.bet_amount == 0)
           safe_clicks := 0 } ∧
    u' = (if (u.free_trials_left > 0 && req.bet_amount == 0) = true then
            { u with free_trials_left := u.free_trials_left - 1,
                     total_games := u.total_games + 1 }
          else
            { u with points := u.points - req.bet_amount,
                     total_games := u.total_games + 1 }) ∧
    resp = { is_free_trial := (u.free_trials_left > 0 && req.bet_amount == 0)
             bet_amount := req.bet_amount
             mine_count := req.mine_count
             multiplier_per_click_pct := (MINE_PERCENTAGES req.mine_count).getD 12
             current_winnings :=
               if ¬ (u.free_trials_left > 0 && req.bet_amount == 0) then
                 req.bet_amount
               else 0 } := by
  simp only [start_game] at h
  split at h
  · exact absurd h (by simp)
  · split at h
    · exact absurd h (by simp)
    · simp only [Except.ok.injEq, Prod.mk.injEq] at h
      obtain ⟨hu, hg, hr⟩ := h
      subst hu hg hr
      refine ⟨rfl, ?_, rfl⟩
      split <;> simp_all

lemma click_cell_safe_fields {g : Game} {row col : Int} {g' : Game}
    {resp : ClickResp} (h : click_cell g row col = Except.ok (g', resp))
    (hact : g'.is_active = true) :
    g'.safe_clicks = g.safe_clicks + 1 ∧
    g'.current_multiplier =
      calculate_multiplier (g.safe_clicks + 1) g.multiplier_per_click ∧
    g'.multiplier_per_click = g.multiplier_per_click ∧
    g'.bet_amount = g.bet_amount ∧
    g'.is_free_trial = g.is_free_trial ∧
    g'.current_winnings =
      (if g.is_free_trial = false then
        pyInt ((g.bet_amount : ℚ) * g'.current_multiplier)
      else 0) ∧
    resp = ClickResp.safe g'.safe_clicks g'.current_winnings ∧
    g.is_active = true := by
  unfold click_cell at h
  split at h
  · simp at h
  · rename_i hga
    split at h
    · simp at h
    · simp at h
    · rename_i hrev
      split at h
      · simp at h
      · rename_i g1 hm1
        split at h
        · simp at h
        · rename_i v hv
          split at h
          · simp only [Except.ok.injEq, Prod.mk.injEq] at h
            obtain ⟨hg, hr⟩ := h
            subst hg
            simp at hact
          · simp only [Except.ok.injEq, Prod.mk.injEq] at h
            obtain ⟨hg, hr⟩ := h
            subst hg hr
            unfold mongoSetRevealed at hm1
            split at hm1
            · simp only [Except.ok.injEq] at hm1
              subst hm1
              refine ⟨rfl, rfl, rfl, rfl, rfl, ?_, rfl, by simpa using hga⟩
              by_cases hf : g.is_free_trial = true <;> simp [hf]
            · simp at hm1

lemma click_cell_mine_fields {g : Game} {row col : Int} {g' : Game}
    {resp : ClickResp} (h : click_cell g row col = Except.ok (g', resp))
    (hmine : pyGet2 g.mines row col = some 1) :
    g'.is_active = false ∧ resp = ClickResp.mineHit 0 ∧
    g'.current_winnings = g.current_winnings ∧
    g'.current_multiplier = g.current_multiplier ∧
    g'.safe_clicks = g.safe_clicks ∧
    g'.is_free_trial = g.is_free_trial ∧
    g'.bet_amount = g.bet_amount ∧
    g'.mines = g.mines := by
  unfold click_cell at h
  split at h
  · simp at h
  · split at h
    · simp at h
    · simp at h
    · split at h
      · simp at h
      · rename_i g1 hm1
        split at h
        · simp at h
        · rename_i v hv
          rw [hmine] at hv
          simp only [Option.some.injEq] at hv
          subst hv
          split at h
          · simp only [Except.ok.injEq, Prod.mk.injEq] at h
            obtain ⟨hg, hr⟩ := h
            subst hg hr
            unfold mongoSetRevealed at hm1
            split at hm1
            · simp only [Except.ok.injEq] at hm1
              subst hm1
              exact ⟨rfl, rfl, rfl, rfl, rfl, rfl, rfl, rfl⟩
            · simp at hm1
          · simp at *

lemma click_cell_requires_active {g : Game} {row col : Int} {g' : Game}
    {resp : ClickResp} (h : click_cell g row col = Except.ok (g', resp)) :
    g.is_active = true := by
  unfold click_cell at h
  split at h
  · simp at h
  · rename_i hga
    simpa using hga

lemma revealSeq_ok :
    ∀ (ps : List (Int × Int)) (g g' : Game),
      revealSeq g ps = Except.ok g' → g'.is_active = true →
      g.is_active = true ∧
      g'.safe_clicks = g.safe_clicks + ps.length ∧
      g'.multiplier_per_click = g.multiplier_per_click ∧
      g'.bet_amount = g.bet_amount ∧
      g'.is_free_trial = g.is_free_trial ∧
      (g'.current_multiplier =
        calculate_multiplier g'.safe_clicks g'.multiplier_per_click ∨ g' = g)
  | [], g, g' => by
    intro hrun hact
    simp only [revealSeq, Except.ok.injEq] at hrun
    subst hrun
    simp [hact]
  | p :: rest, g, g' => by
    intro hrun hact
    simp only [revealSeq] at hrun
    split at hrun
    · rename_i g1 r hclick
      obtain ⟨hact1, hsc, hmpc, hbet, hfree, hmult⟩ :=
        revealSeq_ok rest g1 g' hrun hact
      obtain ⟨hsc1, hmult1, hmpc1, hbet1, hfree1, _, _, hga⟩ :=
        click_cell_safe_fields hclick hact1
      refine ⟨hga, by simp only [List.length_cons] at *; omega,
        by rw [hmpc, hmpc1], by rw [hbet, hbet1],
        by rw [hfree, hfree1], Or.inl ?_⟩
      rcases hmult with hm | hm
      · exact hm
      · subst hm
        rw [hmult1, hsc1, hmpc1]
    · simp at hrun

lemma click_cell_free_reports {g : Game} {row col : Int} {g' : Game}
    {resp : ClickResp} (hfree : g.is_free_trial = true)
    (h : click_cell g row col = Except.ok (g', resp)) :
    resp.reportedWinnings = 0 ∧ g'.is_free_trial = true := by
  unfold click_cell at h
  split at h
  · simp at h
  · split at h
    · simp at h
    · simp at h
    · split at h
      · simp at h
      · rename_i g1 hm1
        split at h
        · simp at h
        · rename_i v hv
          unfold mongoSetRevealed at hm1
          split at hm1
          · simp only [Except.ok.injEq] at hm1
            subst hm1
            split at h
            · simp only [Except.ok.injEq, Prod.mk.injEq] at h
              obtain ⟨hg, hr⟩ := h
              subst hg hr
              exact ⟨rfl, hfree⟩
            · simp only [Except.ok.injEq, Prod.mk.injEq] at h
              obtain ⟨hg, hr⟩ := h
              subst hg hr
              refine ⟨?_, hfree⟩
              simp [ClickResp.reportedWinnings, hfree]
          · simp at hm1

/-- `demoGame50` after safely revealing (4,4). -/
def demoRun1 : Game :=
  { bet_amount := 50, mine_count := 3, multiplier_per_click := 3 / 25,
    current_multiplier := 28 / 25, current_winnings := 56, mines := minesTopRow,
    revealed := [[false, false, false, false, false],
                 [false, false, false, false, false],
                 [false, false, false, false, false],
                 [false, false, false, false, false],
                 [false, false, false, false, true]],
    is_active := true, is_free_trial := false, safe_clicks := 1 }


/-- `demoGame50` after revealing the mine at (0,0): the stored document keeps
`current_winnings` at 50 even though the session is now terminal. -/
def demoLostGame : Game :=
  { bet_amount := 50, mine_count := 3, multiplier_per_click := 3 / 25,
    current_multiplier := 1, current_winnings := 50, mines := minesTopRow,
    revealed := [[true, false, false, false, false],
                 [false, false, false, false, false],
                 [false, false, false, false, false],
                 [false, false, false, false, false],
                 [false, false, false, false, false]],
    is_active := false, is_free_trial := false, safe_clicks := 0 }

/-- `demoUser` after starting a free (stake-0) session. -/
def demoFreeUser : UserRec :=
  { points := 1000, wallet_balance := 100, free_trials_left := 2,
    total_games := 1, total_winnings := 0 }

/-- The free session document `start_game demoUser ⟨0, 3⟩ minesTopRow` inserts. -/
def demoFreeGame : Game :=
  { bet_amount := 0, mine_count := 3, multiplier_per_click := 3 / 25,
    current_multiplier := 1, current_winnings := 0, mines := minesTopRow,
    revealed := List.replicate 5 (List.replicate 5 false),
    is_active := true, is_free_trial := true, safe_clicks := 0 }

/-- The response of the free demo start. -/
def demoFreeResp : StartResp :=
  { is_free_trial := true, bet_amount := 0, mine_count := 3,
    multiplier_per_click_pct := 12, current_winnings := 0 }

/-- `demoUserAfter` after cashing out the 62-point demo session. -/
def demoCashedUser : UserRec :=
  { points := 1012, wallet_balance := 162, free_trials_left := 3,
    total_games := 1, total_winnings := 62 }

/-- `demoRun2` after cash-out. -/
def demoCashedGame : Game :=
  { demoRun2 with is_active := false }

lemma demo_start50 : start_game demoUser ⟨50, 3⟩ minesTopRow =
    Except.ok (demoUserAfter, demoGame50, demoResp50) := by
  simp only [start_game, demoUser, demoUserAfter, demoGame50, demoResp50,
    get_multiplier_per_click, MINE_PERCENTAGES]
  norm_num
  try rfl

lemma demo_startFree : start_game demoUser ⟨0, 3⟩ minesTopRow =
    Except.ok (demoFreeUser, demoFreeGame, demoFreeResp) := by
  simp only [start_game, demoUser, demoFreeUser, demoFreeGame, demoFreeResp,
    get_multiplier_per_click, MINE_PERCENTAGES]
  norm_num
  try rfl

lemma demo_click1 : click_cell demoGame50 4 4 =
    Except.ok (demoRun1, ClickResp.safe 1 56) := by
  simp only [click_cell, demoGame50, demoRun1, minesTopRow, pyGet2, pyGet,
    mongoSetRevealed, setCell, calculate_multiplier, pyInt]
  norm_num
  try rfl

lemma demo_click2 : click_cell demoRun1 4 3 =
    Except.ok (demoRun2, ClickResp.safe 2 62) := by
  simp only [click_cell, demoRun1, demoRun2, minesTopRow, pyGet2, pyGet,
    mongoSetRevealed, setCell, calculate_multiplier, pyInt]
  norm_num
  try rfl

lemma demo_revealSeq : revealSeq demoGame50 [(4, 4), (4, 3)] =
    Except.ok demoRun2 := by
  simp only [revealSeq, demo_click1, demo_click2]

lemma demo_mine : click_cell demoGame50 0 0 =
    Except.ok (demoLostGame, ClickResp.mineHit 0) := by
  simp only [click_cell, demoGame50, demoLostGame, minesTopRow, pyGet2, pyGet,
    mongoSetRevealed, setCell]
  norm_num
  try rfl

lemma demo_cashout : cash_out demoUserAfter demoRun2 =
    Except.ok (demoCashedUser, demoCashedGame, 62) := by
  simp only [cash_out, demoUserAfter, demoRun2, demoCashedUser, demoCashedGame]
  norm_num
  try rfl

/-- C1: after each safe reveal on a non-free session the stored and reported
`current_winnings` equal the toward-zero truncation of stake × the stored
cumulative multiplier; every reveal on a free session reports winnings 0 (and
a safe one stores 0); in particular two safe reveals on the stake-50, 3-mine
demo session yield winnings 62. -/
theorem C1_winnings_truncation {g : Game} {row col : Int} {g' : Game}
    {resp : ClickResp} (hclick : click_cell g row col = Except.ok (g', resp)) :
    (g'.is_active = true → g.is_free_trial = false →
      g'.current_winnings = pyInt ((g.bet_amount : ℚ) * g'.current_multiplier) ∧
      resp.reportedWinnings = g'.current_winnings) ∧
    (g.is_free_trial = true →
      resp.reportedWinnings = 0 ∧
      (g'.is_active = true → g'.current_winnings = 0)) ∧
    start_game demoUser ⟨50, 3⟩ minesTopRow =
      Except.ok (demoUserAfter, demoGame50, demoResp50) ∧
    revealSeq demoGame50 [(4, 4), (4, 3)] = Except.ok demoRun2 ∧
    demoRun2.current_winnings = 62 := by
  refine ⟨?_, ?_, demo_start50, demo_revealSeq, rfl⟩
  · intro hact hf
    obtain ⟨hsc, hmult, hmpc, hbet, hfree, hwin, hresp, hga⟩ :=
      click_cell_safe_fields hclick hact
    rw [hf] at hwin
    simp only [if_pos rfl] at hwin
    refine ⟨hwin, ?_⟩
    rw [hresp]
    rfl
  · intro hf
    obtain ⟨hrep, _⟩ := click_cell_free_reports hf hclick
    refine ⟨hrep, ?_⟩
    intro hact
    obtain ⟨hsc, hmult, hmpc, hbet, hfree, hwin, hresp, hga⟩ :=
      click_cell_safe_fields hclick hact
    rw [hf] at hwin
    simpa using hwin

/-- Witness for C1 at the concrete safe reveal (4,4) on the demo session. -/
theorem C1_winnings_truncation_witness :
    demoRun1.current_winnings = pyInt ((50 : ℚ) * demoRun1.current_multiplier) ∧
    (ClickResp.safe 1 56).reportedWinnings = demoRun1.current_winnings := by
  have h := @C1_winnings_truncation demoGame50 4 4 demoRun1
    (ClickResp.safe 1 56) demo_click1
  exact h.1 (by decide) (by decide)

/-- C2: from a freshly started session with mine count in [1,8], after any
run of n safe reveals the stored cumulative multiplier is exactly
1 + n · r with r the per-click increment of the spec §4.2 table, the
safe-click counter is n, and the multiplier is non-decreasing in n. -/
theorem C2_multiplier_formula {u : UserRec} {req : GameStart}
    {mines : List (List Int)} {u' : UserRec} {g0 : Game} {resp : StartResp}
    {ps : List (Int × Int)} {g' : Game}
    (hmc1 : 1 ≤ req.mine_count) (hmc8 : req.mine_count ≤ 8)
    (hstart : start_game u req mines = Except.ok (u', g0, resp))
    (hrun : revealSeq g0 ps = Except.ok g')
    (hact : g'.is_active = true) :
    g'.current_multiplier =
      1 + (ps.length : ℚ) * specIncrement req.mine_count ∧
    g'.safe_clicks = (ps.length : Int) ∧
    (∀ k l : ℕ, k ≤ l →
      1 + (k : ℚ) * specIncrement req.mine_count ≤
        1 + (l : ℚ) * specIncrement req.mine_count) := by
  obtain ⟨hg0, hu', hresp⟩ := start_game_ok hstart
  obtain ⟨hact0, hsc, hmpc, hbet, hfree, hmult⟩ := revealSeq_ok ps g0 g' hrun hact
  have hmpc0 : g0.multiplier_per_click = specIncrement req.mine_count := by
    rw [hg0]
    exact get_multiplier_per_click_table hmc1 hmc8
  have hsc0 : g0.safe_clicks = 0 := by rw [hg0]
  have hscn : g'.safe_clicks = (ps.length : Int) := by rw [hsc, hsc0]; ring
  refine ⟨?_, hscn, ?_⟩
  · rcases hmult with hm | hm
    · rw [hm, hscn]
      unfold calculate_multiplier
      rw [hmpc, hmpc0]
      push_cast
      ring
    · subst hm
      have hlen : ps.length = 0 := by omega
      rw [hlen, hg0]
      norm_num
  · intro k l hkl
    have hr := specIncrement_nonneg req.mine_count
    have hk : (k : ℚ) ≤ (l : ℚ) := by exact_mod_cast hkl
    nlinarith

/-- Witness for C2 on the two-reveal demo run. -/
theorem C2_multiplier_formula_witness :
    demoRun2.current_multiplier = 1 + (2 : ℚ) * specIncrement 3 ∧
    demoRun2.safe_clicks = 2 := by
  have h := @C2_multiplier_formula demoUser ⟨50, 3⟩ minesTopRow demoUserAfter
    demoGame50 demoResp50 [(4, 4), (4, 3)] demoRun2
    (by decide) (by decide) demo_start50 demo_revealSeq (by decide)
  refine ⟨?_, by simpa using h.2.1⟩
  have h1 := h.1
  norm_num at h1 ⊢
  exact h1

/-- C3: successful cash-out on a non-free session with positive winnings
credits the owner's points and lifetime winnings by exactly
`current_winnings`, leaving games-played and free credits unchanged; on a
free or zero-winnings session it leaves the account record untouched; the
session always becomes inactive and the reported amount is the stored
winnings. -/
theorem C3_cashout_ledger {u : UserRec} {g : Game} {u' : UserRec} {g1 : Game}
    {w : Int} (h : cash_out u g = Except.ok (u', g1, w)) :
    (g.is_free_trial = false → 0 < g.current_winnings →
      u'.points = u.points + g.current_winnings ∧
      u'.total_winnings = u.total_winnings + g.current_winnings ∧
      u'.total_games = u.total_games ∧
      u'.free_trials_left = u.free_trials_left) ∧
    ((g.is_free_trial = true ∨ g.current_winnings = 0) → u' = u) ∧
    g1.is_active = false ∧ w = g.current_winnings := by
  simp only [cash_out] at h
  split at h
  · simp at h
  · simp only [Except.ok.injEq, Prod.mk.injEq] at h
    obtain ⟨hu, hg, hw⟩ := h
    subst hu hg hw
    refine ⟨?_, ?_, rfl, rfl⟩
    · intro hf hpos
      rw [if_pos ⟨by simp [hf], hpos⟩]
      exact ⟨rfl, rfl, rfl, rfl⟩
    · intro hcase
      rw [if_neg]
      rintro ⟨hnf, hpos⟩
      rcases hcase with hc | hc
      · exact hnf (by simp [hc])
      · omega

/-- Witness for C3 at the concrete demo cash-out (62 points credited). -/
theorem C3_cashout_ledger_witness :
    demoCashedUser.points = demoUserAfter.points + demoRun2.current_winnings ∧
    demoCashedUser.total_games = demoUserAfter.total_games ∧
    demoCashedUser.free_trials_left = demoUserAfter.free_trials_left := by
  have h := @C3_cashout_ledger demoUserAfter demoRun2 demoCashedUser
    demoCashedGame 62 demo_cashout
  obtain ⟨hp, _, hg, hf⟩ := h.1 (by decide) (by decide)
  exact ⟨hp, hg, hf⟩

/-- C4: a start request with mine count outside [1,8] fails with the
mine-count error, and a paid request whose stake exceeds the balance fails
with the insufficient-points error (in the pure model an error result leaves
the account record and creates no session, since no updated state is
produced); in particular stake 10000 against balance 900 is rejected. -/
theorem C4_start_rejections (u : UserRec) (req : GameStart)
    (mines : List (List Int)) :
    (req.mine_count < 1 ∨ req.mine_count > 8 →
      start_game u req mines = Except.error ApiErr.mineCountOutOfRange) ∧
    (1 ≤ req.mine_count → req.mine_count ≤ 8 →
      ¬ (u.free_trials_left > 0 ∧ req.bet_amount = 0) →
      u.points < req.bet_amount →
      start_game u req mines = Except.error ApiErr.insufficientPoints) ∧
    start_game { demoUser with points := 900 } ⟨10000, 3⟩ minesTopRow =
      Except.error ApiErr.insufficientPoints := by
  refine ⟨?_, ?_, by rfl⟩
  · intro hmc
    simp only [start_game]
    rw [if_pos hmc]
  · intro h1 h8 hfree hlt
    simp only [start_game]
    rw [if_neg (by omega)]
    rw [if_pos ⟨by simpa using hfree, hlt⟩]

/-- Witness for C4: both rejection branches at concrete inputs. -/
theorem C4_start_rejections_witness :
    start_game demoUser ⟨50, 0⟩ minesTopRow =
      Except.error ApiErr.mineCountOutOfRange ∧
    start_game { demoUser with points := 900 } ⟨1000, 3⟩ minesTopRow =
      Except.error ApiErr.insufficientPoints := by
  refine ⟨(C4_start_rejections demoUser ⟨50, 0⟩ minesTopRow).1 (by decide),
    (C4_start_rejections { demoUser with points := 900 } ⟨1000, 3⟩
      minesTopRow).2.1 (by decide) (by decide) (by decide) (by decide)⟩

/-- C5: a strictly negative stake is accepted whenever the balance is at
least the stake: the session is classified paid (not free), and the debit
step increases the balance by the absolute value of the stake. -/
theorem C5_negative_stake_accepted (u : UserRec) (req : GameStart)
    (mines : List (List Int)) (h1 : 1 ≤ req.mine_count)
    (h8 : req.mine_count ≤ 8) (hneg : req.bet_amount < 0)
    (hbal : req.bet_amount ≤ u.points) :
    start_game u req mines =
      Except.ok
        ({ u with points := u.points - req.bet_amount,
                  total_games := u.total_games + 1 },
         { bet_amount := req.bet_amount, mine_count := req.mine_count,
           multiplier_per_click := get_multiplier_per_click req.mine_count,
           current_multiplier := 1, current_winnings := req.bet_amount,
           mines := mines,
           revealed := List.replicate 5 (List.replicate 5 false),
           is_active := true, is_free_trial := false, safe_clicks := 0 },
         { is_free_trial := false, bet_amount := req.bet_amount,
           mine_count := req.mine_count,
           multiplier_per_click_pct := (MINE_PERCENTAGES req.mine_count).getD 12,
           current_winnings := req.bet_amount }) ∧
    u.points < u.points - req.bet_amount := by
  have hbne : (req.bet_amount == 0) = false := by
    simp only [beq_eq_false_iff_ne, ne_eq]
    omega
  constructor
  · simp only [start_game, hbne, Bool.and_false]
    rw [if_neg (by omega)]
    rw [if_neg (by rintro ⟨-, hlt⟩; omega)]
    simp
  · omega

/-- Witness for C5 at stake −100: the balance rises from 1000 to 1100. -/
theorem C5_negative_stake_accepted_witness :
    start_game demoUser ⟨-100, 3⟩ minesTopRow =
      Except.ok
        ({ demoUser with points := demoUser.points - (-100),
                         total_games := demoUser.total_games + 1 },
         { bet_amount := -100, mine_count := 3,
           multiplier_per_click := get_multiplier_per_click 3,
           current_multiplier := 1, current_winnings := -100,
           mines := minesTopRow,
           revealed := List.replicate 5 (List.replicate 5 false),
           is_active := true, is_free_trial := false, safe_clicks := 0 },
         { is_free_trial := false, bet_amount := -100, mine_count := 3,
           multiplier_per_click_pct := (MINE_PERCENTAGES 3).getD 12,
           current_winnings := -100 }) ∧
    demoUser.points < demoUser.points - (-100) :=
  C5_negative_stake_accepted demoUser ⟨-100, 3⟩ minesTopRow (by decide)
    (by decide) (by decide) (by decide)

/-- C6: a started session is free iff the account had a free credit left and
the stake was 0; a free start leaves points and wallet unchanged and
consumes exactly one free credit, reporting winnings 0; and every reveal on
a free session reports winnings 0 (the free flag persisting). -/
theorem C6_free_session {u : UserRec} {req : GameStart}
    {mines : List (List Int)} {u' : UserRec} {g0 : Game} {resp : StartResp}
    (hstart : start_game u req mines = Except.ok (u', g0, resp)) :
    (g0.is_free_trial = true ↔ (u.free_trials_left > 0 ∧ req.bet_amount = 0)) ∧
    (g0.is_free_trial = true →
      u'.points = u.points ∧
      u'.wallet_balance = u.wallet_balance ∧
      u'.free_trials_left = u.free_trials_left - 1 ∧
      resp.current_winnings = 0) ∧
    (∀ (gg : Game) (row col : Int) (gg' : Game) (r : ClickResp),
      gg.is_free_trial = true → click_cell gg row col = Except.ok (gg', r) →
      r.reportedWinnings = 0 ∧ gg'.is_free_trial = true) := by
  obtain ⟨hg0, hu', hresp⟩ := start_game_ok hstart
  refine ⟨?_, ?_, ?_⟩
  · rw [hg0]
    simp
  · intro hf
    have hcond : (u.free_trials_left > 0 && req.bet_amount == 0) = true := by
      rw [hg0] at hf
      simpa using hf
    rw [hu', if_pos hcond, hresp]
    refine ⟨rfl, rfl, rfl, ?_⟩
    simp [hcond]
  · intro gg row col gg' r hf hclick
    exact click_cell_free_reports hf hclick

/-- Witness for C6 at the concrete free demo start. -/
theorem C6_free_session_witness :
    demoFreeGame.is_free_trial = true ∧
    demoFreeUser.points = demoUser.points ∧
    demoFreeUser.free_trials_left = demoUser.free_trials_left - 1 := by
  have h := @C6_free_session demoUser ⟨0, 3⟩ minesTopRow demoFreeUser
    demoFreeGame demoFreeResp demo_startFree
  obtain ⟨hp, _, hft, _⟩ := h.2.1 (by decide)
  exact ⟨by decide, hp, hft⟩

/-- C7: once a session is inactive (terminal), every reveal and every
cash-out on it fails with the not-active error; in the pure model an error
result leaves both the session document and the account record unchanged,
since no updated state is produced. -/
theorem C7_terminal_rejection (u : UserRec) (g : Game)
    (hterm : g.is_active = false) :
    (∀ row col : Int,
      click_cell g row col = Except.error ApiErr.gameNotActive) ∧
    cash_out u g = Except.error ApiErr.gameNotActive := by
  constructor
  · intro row col
    simp [click_cell, hterm]
  · simp [cash_out, hterm]

/-- Witness for C7 on the cashed-out demo session: the second cash-out and a
further reveal both fail. -/
theorem C7_terminal_rejection_witness :
    click_cell demoCashedGame 2 2 = Except.error ApiErr.gameNotActive ∧
    cash_out demoCashedUser demoCashedGame =
      Except.error ApiErr.gameNotActive := by
  have h := C7_terminal_rejection demoCashedUser demoCashedGame (by decide)
  exact ⟨h.1 2 2, h.2⟩

/-- C8 counterexample: revealing the mine at (0,0) on the fresh stake-50 demo
session makes it terminal, yet the stored `current_winnings` stays 50, not 0
(only the response reports 0). -/
theorem C8_lost_winnings_counterexample :
    start_game demoUser ⟨50, 3⟩ minesTopRow =
      Except.ok (demoUserAfter, demoGame50, demoResp50) ∧
    click_cell demoGame50 0 0 =
      Except.ok (demoLostGame, ClickResp.mineHit 0) ∧
    demoLostGame.is_active = false ∧
    demoLostGame.current_winnings = 50 :=
  ⟨demo_start50, demo_mine, by decide, by decide⟩

/-- C8 amended: revealing a mine makes the session terminal and the response
reports winnings 0 with no ledger credit (`click_cell` never touches the
account record), but the stored `current_winnings` is left unchanged rather
than being zeroed. -/
theorem C8_mine_hit_amended {g : Game} {row col : Int} {g' : Game}
    {resp : ClickResp} (hclick : click_cell g row col = Except.ok (g', resp))
    (hmine : pyGet2 g.mines row col = some 1) :
    g'.is_active = false ∧
    resp = ClickResp.mineHit 0 ∧
    g'.current_winnings = g.current_winnings ∧
    g'.current_multiplier = g.current_multiplier ∧
    g'.safe_clicks = g.safe_clicks := by
  obtain ⟨h1, h2, h3, h4, h5, _, _, _⟩ := click_cell_mine_fields hclick hmine
  exact ⟨h1, h2, h3, h4, h5⟩

/-- Witness for the amended C8 at the concrete demo mine hit. -/
theorem C8_mine_hit_amended_witness :
    demoLostGame.is_active = false ∧
    demoLostGame.current_winnings = demoGame50.current_winnings := by
  have h := @C8_mine_hit_amended demoGame50 0 0 demoLostGame
    (ClickResp.mineHit 0) demo_mine (by decide)
  exact ⟨h.1, h.2.2.1⟩

/-- C9: the reveal handler performs no coordinate validation.  A row or
column ≥ 5 (or < −5) hits an unhandled Python `IndexError` (HTTP 500), and a
negative coordinate in [−5,−1] is accepted by the Python read as an alias of
a real cell (the last conjunct) so the handler raises no validation error at
all — the call then dies in the store write.  No path produces the
`InvalidConfiguration` rejection the spec requires. -/
theorem C9_out_of_bounds_no_validation :
    click_cell demoGame50 5 0 = Except.error ApiErr.indexError ∧
    click_cell demoGame50 0 5 = Except.error ApiErr.indexError ∧
    click_cell demoGame50 0 (-6) = Except.error ApiErr.indexError ∧
    click_cell demoGame50 (-1) 0 = Except.error ApiErr.mongoWriteError ∧
    pyGet2 demoGame50.revealed (-1) 0 = some false :=
  ⟨rfl, rfl, rfl, rfl, rfl⟩

lemma getD_map_range {α : Type _} (f : ℕ → α) (d : α) {i : ℕ} (hi : i < 5) :
    ((List.range 5).map f).getD i d = f i := by
  rw [List.getD_eq_getElem?_getD, List.getElem?_map, List.getElem?_range hi]
  rfl

lemma cellD_get_game (g : Game) {i j : ℕ} (hi : i < 5) (hj : j < 5) :
    cellD (get_game g).mines 0 i j =
      if cellD g.revealed false i j then cellD g.mines 0 i j else 0 := by
  have hm : (get_game g).mines =
      (List.range 5).map (fun a =>
        (List.range 5).map (fun b =>
          if cellD g.revealed false a b then cellD g.mines 0 a b else 0)) := rfl
  rw [hm]
  unfold cellD
  rw [getD_map_range _ _ hi, getD_map_range _ _ hj]

lemma get_game_mask_eq (g : Game) (m2 : List (List Int))
    (hagree : ∀ i j : ℕ, i < 5 → j < 5 → cellD g.revealed false i j = true →
      cellD g.mines 0 i j = cellD m2 0 i j) :
    get_game { g with mines := m2 } = get_game g := by
  unfold get_game
  dsimp only
  congr 1
  apply List.map_congr_left
  intro i hi
  apply List.map_congr_left
  intro j hj
  rw [List.mem_range] at hi hj
  by_cases hrev : cellD g.revealed false i j = true
  · rw [if_pos hrev, if_pos hrev]
    exact (hagree i j hi hj hrev).symm
  · rw [if_neg hrev, if_neg hrev]

lemma getD_false_row (j : ℕ) :
    ([false, false, false, false, false][j]?).getD false = false := by
  rcases Nat.lt_or_ge j 5 with hj | hj
  · interval_cases j <;> rfl
  · rw [List.getElem?_eq_none (by simpa using hj)]
    rfl

lemma cellD_replicate_false (i j : ℕ) :
    cellD (List.replicate 5 (List.replicate 5 false)) false i j = false := by
  simp only [cellD, List.getD_eq_getElem?_getD, List.getElem?_replicate]
  split_ifs with h
  · simpa using getD_false_row j
  · simp

/-- A layout with its 3 mines in the bottom row instead. -/
def minesBottomRow : List (List Int) :=
  [[0, 0, 0, 0, 0], [0, 0, 0, 0, 0], [0, 0, 0, 0, 0],
   [0, 0, 0, 0, 0], [1, 1, 1, 0, 0]]

/-- C10: the masked view of a session depends only on the revealed map and
the mine values of revealed cells — two sessions differing only in mine
placement among unrevealed cells get identical `get_game` views; every
revealed cell reports its true mine value, and every unrevealed cell reports
the constant 0.  (The masked map is recomputed by `get_game` from the stored
`revealed` and `mines` fields on every call; it is a function of them.) -/
theorem C10_masked_no_leak (g : Game) (m2 : List (List Int))
    (hagree : ∀ i j : ℕ, i < 5 → j < 5 → cellD g.revealed false i j = true →
      cellD g.mines 0 i j = cellD m2 0 i j) :
    get_game { g with mines := m2 } = get_game g ∧
    (∀ i j : ℕ, i < 5 → j < 5 → cellD g.revealed false i j = true →
      cellD (get_game g).mines 0 i j = cellD g.mines 0 i j) ∧
    (∀ i j : ℕ, i < 5 → j < 5 → cellD g.revealed false i j = false →
      cellD (get_game g).mines 0 i j = 0) := by
  refine ⟨get_game_mask_eq g m2 hagree, ?_, ?_⟩
  · intro i j hi hj hrev
    rw [cellD_get_game g hi hj, if_pos hrev]
  · intro i j hi hj hrev
    rw [cellD_get_game g hi hj, if_neg]
    simp [hrev]

/-- Witness for C10: the all-unrevealed demo session masks the top-row and
bottom-row layouts to the same view. -/
theorem C10_masked_no_leak_witness :
    get_game { demoGame50 with mines := minesBottomRow } =
      get_game demoGame50 := by
  refine (C10_masked_no_leak demoGame50 minesBottomRow ?_).1
  intro i j hi hj hrev
  rw [show demoGame50.revealed = List.replicate 5 (List.replicate 5 false)
    from rfl, cellD_replicate_false] at hrev
  simp at hrev
